import Mathlib

/-!
Verification of the Signed Prompt Sender script
(`apps/worker/scripts/test-prompt.py`).

The script reads configuration from the environment (after merging an
optional `.env` override file), reads a prompt from a file, serializes a
JSON envelope with Python json.dumps using compact separators
(comma and colon) and ensure_ascii=False, signs the UTF-8 bytes with
HMAC-SHA256, and POSTs them, printing the response.

This file embeds the script shallowly: the environment is a function
`String → Option String` (the merged result of `os.environ` and the
`.env` file, as seen through `os.getenv`), the filesystem is a function
`String → FileResult` (a successful read, `FileNotFoundError`, or an
open failure the script does not catch), and the network is a
function from the issued request to a transport result.
The observable behaviour (stdout lines, stderr lines, exit code, the
single optional HTTP request) is collected in an `Outcome`.
-/

namespace SheenApps

/-! ## Bytes and lowercase hex -/

/-- Lowercase hexadecimal digit for `n < 16` (Python `%x` formatting). -/
def hexDigitChar (n : Nat) : Char :=
  if n < 10 then Char.ofNat (48 + n) else Char.ofNat (87 + n)

/-- Two lowercase hex characters for one byte, as in `bytes.hex()` /
`hexdigest()`. -/
def byteToHex (b : Nat) : List Char :=
  [hexDigitChar (b / 16 % 16), hexDigitChar (b % 16)]

/-- Render a byte list as a lowercase hexadecimal string. -/
def bytesToHex : List Nat → List Char
  | [] => []
  | b :: bs => byteToHex b ++ bytesToHex bs

/-! ## Python `json.dumps` string escaping (`ensure_ascii=False`)

CPython, with ensure_ascii=False, replaces exactly the characters of
the regex class 0x00-0x1F plus quote plus backslash: the quote and
backslash, the five short escapes, and every other control
character below 0x20 as a lowercase-hex u-escape of four digits.  All
other characters — including every non-ASCII character — are kept
literally. -/

/-- Escape one character the way CPython `json.dumps` does with
`ensure_ascii=False`. -/
def pyJsonEscapeChar (c : Char) : List Char :=
  if c = Char.ofNat 34 then [Char.ofNat 92, Char.ofNat 34]
  else if c = Char.ofNat 92 then [Char.ofNat 92, Char.ofNat 92]
  else if c = Char.ofNat 8 then [Char.ofNat 92, Char.ofNat 98]
  else if c = Char.ofNat 12 then [Char.ofNat 92, Char.ofNat 102]
  else if c = Char.ofNat 10 then [Char.ofNat 92, Char.ofNat 110]
  else if c = Char.ofNat 13 then [Char.ofNat 92, Char.ofNat 114]
  else if c = Char.ofNat 9 then [Char.ofNat 92, Char.ofNat 116]
  else if c.toNat < 32 then
    [Char.ofNat 92, Char.ofNat 117, Char.ofNat 48, Char.ofNat 48,
     hexDigitChar (c.toNat / 16), hexDigitChar (c.toNat % 16)]
  else [c]

/-- Escape every character of a string body. -/
def pyJsonEscapeList : List Char → List Char
  | [] => []
  | c :: cs => pyJsonEscapeChar c ++ pyJsonEscapeList cs

/-- Encode a string as a JSON string literal, Python style
(`ensure_ascii=False`): surrounding quotes, escaped body. -/
def pyJsonEncodeString (s : String) : String :=
  String.mk (Char.ofNat 34 :: pyJsonEscapeList s.data ++ [Char.ofNat 34])

/-- The serialized envelope text produced by
`json.dumps({"userId": u, "projectId": p, "prompt": pr},
compact separators, ensure_ascii=False)`: keys in insertion order
`userId`, `projectId`, `prompt`; no spaces after `:` or `,`. -/
def serializeEnvelope (userId projectId prompt : String) : String :=
  "\x7b\"userId\":" ++ pyJsonEncodeString userId ++
  ",\"projectId\":" ++ pyJsonEncodeString projectId ++
  ",\"prompt\":" ++ pyJsonEncodeString prompt ++ "\x7d"

/-! ## UTF-8 encoding and strict decoding

`str.encode("utf-8")` on valid Unicode scalar values, and
`bytes.decode("utf-8")`, which is strict: it rejects continuation
bytes out of place, overlong forms, surrogate code points and code
points above U+10FFFF, and truncated sequences. -/

/-- UTF-8 bytes of a single Unicode scalar value. -/
def utf8EncodeChar (c : Char) : List Nat :=
  let n := c.toNat
  if n < 128 then [n]
  else if n < 2048 then [192 + n / 64, 128 + n % 64]
  else if n < 65536 then
    [224 + n / 4096, 128 + n / 64 % 64, 128 + n % 64]
  else
    [240 + n / 262144, 128 + n / 4096 % 64, 128 + n / 64 % 64, 128 + n % 64]

/-- UTF-8 bytes of a character list. -/
def utf8EncodeList : List Char → List Nat
  | [] => []
  | c :: cs => utf8EncodeChar c ++ utf8EncodeList cs

/-- UTF-8 bytes of a string (`str.encode("utf-8")`). -/
def utf8Encode (s : String) : List Nat :=
  utf8EncodeList s.data

/-- Decode one UTF-8 encoded scalar value off the front of a byte
list, strictly: stray continuation bytes, overlong forms, surrogate
code points, code points above U+10FFFF and truncated sequences are
rejected. -/
def utf8DecodeOne : List Nat → Option (Char × List Nat)
  | [] => none
  | b :: bs =>
    if b < 128 then some (Char.ofNat b, bs)
    else if b < 194 then
      -- 0x80-0xBF: stray continuation byte; 0xC0/0xC1: overlong lead
      none
    else if b < 224 then
      -- two-byte sequence, lead 0xC2-0xDF
      match bs with
      | b1 :: rest =>
        if 128 ≤ b1 ∧ b1 < 192 then
          some (Char.ofNat ((b - 192) * 64 + (b1 - 128)), rest)
        else none
      | [] => none
    else if b < 240 then
      -- three-byte sequence, lead 0xE0-0xEF; 0xE0 forbids overlong
      -- continuations below 0xA0, 0xED forbids surrogates (0xA0 and up)
      match bs with
      | b1 :: b2 :: rest =>
        if (128 ≤ b1 ∧ b1 < 192) ∧ (128 ≤ b2 ∧ b2 < 192) ∧
           (b = 224 → 160 ≤ b1) ∧ (b = 237 → b1 < 160) then
          some (Char.ofNat ((b - 224) * 4096 + (b1 - 128) * 64 + (b2 - 128)), rest)
        else none
      | _ => none
    else if b < 245 then
      -- four-byte sequence, lead 0xF0-0xF4; 0xF0 forbids overlong,
      -- 0xF4 forbids code points above U+10FFFF
      match bs with
      | b1 :: b2 :: b3 :: rest =>
        if (128 ≤ b1 ∧ b1 < 192) ∧ (128 ≤ b2 ∧ b2 < 192) ∧
           (128 ≤ b3 ∧ b3 < 192) ∧
           (b = 240 → 144 ≤ b1) ∧ (b = 244 → b1 < 144) then
          some (Char.ofNat ((b - 240) * 262144 + (b1 - 128) * 4096 +
                (b2 - 128) * 64 + (b3 - 128)), rest)
        else none
      | _ => none
    else none

/-- Decode a whole byte list, one scalar value at a time (`fuel`
bounds the recursion depth; the byte count suffices, every step
consumes at least one byte). -/
def utf8DecodeGo : Nat → List Nat → Option (List Char)
  | _, [] => some []
  | 0, _ :: _ => none
  | fuel + 1, b :: bs =>
    (utf8DecodeOne (b :: bs)).bind
      (fun p => Option.map (fun cs => p.1 :: cs) (utf8DecodeGo fuel p.2))

/-- Strict UTF-8 decoding of a byte list into characters; `none` models
a `UnicodeDecodeError` from `bytes.decode("utf-8")`. -/
def utf8DecodeList (l : List Nat) : Option (List Char) :=
  utf8DecodeGo l.length l

/-- Strict UTF-8 decoding of a byte list into a string
(`bytes.decode("utf-8")`); `none` models `UnicodeDecodeError`. -/
def utf8DecodeStr (bs : List Nat) : Option String :=
  match utf8DecodeList bs with
  | some cs => some (String.mk cs)
  | none => none

/-! ## SHA-256 and HMAC-SHA256 (`hashlib.sha256`, `hmac.new`)

FIPS 180-4 SHA-256 over byte lists, with 32-bit words as `Nat` reduced
modulo `2 ^ 32`, and RFC 2104 HMAC with the 64-byte block size. -/

/-- Reduce to a 32-bit word. -/
def w32 (n : Nat) : Nat := n % 4294967296

/-- Right rotation of a 32-bit word. -/
def rotr32 (r x : Nat) : Nat := w32 ((x >>> r) ||| (x <<< (32 - r)))

/-- SHA-256 `Ch` function. -/
def shaCh (x y z : Nat) : Nat := (x &&& y) ^^^ ((x ^^^ 4294967295) &&& z)

/-- SHA-256 `Maj` function. -/
def shaMaj (x y z : Nat) : Nat := (x &&& y) ^^^ (x &&& z) ^^^ (y &&& z)

/-- SHA-256 big Sigma 0. -/
def bigSigma0 (x : Nat) : Nat := rotr32 2 x ^^^ rotr32 13 x ^^^ rotr32 22 x

/-- SHA-256 big Sigma 1. -/
def bigSigma1 (x : Nat) : Nat := rotr32 6 x ^^^ rotr32 11 x ^^^ rotr32 25 x

/-- SHA-256 small sigma 0. -/
def smallSigma0 (x : Nat) : Nat := rotr32 7 x ^^^ rotr32 18 x ^^^ (x >>> 3)

/-- SHA-256 small sigma 1. -/
def smallSigma1 (x : Nat) : Nat := rotr32 17 x ^^^ rotr32 19 x ^^^ (x >>> 10)

/-- The 64 SHA-256 round constants. -/
def shaK : List Nat :=
  [1116352408, 1899447441, 3049323471, 3921009573,
   961987163, 1508970993, 2453635748, 2870763221,
   3624381080, 310598401, 607225278, 1426881987,
   1925078388, 2162078206, 2614888103, 3248222580,
   3835390401, 4022224774, 264347078, 604807628,
   770255983, 1249150122, 1555081692, 1996064986,
   2554220882, 2821834349, 2952996808, 3210313671,
   3336571891, 3584528711, 113926993, 338241895,
   666307205, 773529912, 1294757372, 1396182291,
   1695183700, 1986661051, 2177026350, 2456956037,
   2730485921, 2820302411, 3259730800, 3345764771,
   3516065817, 3600352804, 4094571909, 275423344,
   430227734, 506948616, 659060556, 883997877,
   958139571, 1322822218, 1537002063, 1747873779,
   1955562222, 2024104815, 2227730452, 2361852424,
   2428436474, 2756734187, 3204031479, 3329325298]

/-- The SHA-256 initial hash state. -/
def shaH0 : List Nat :=
  [1779033703, 3144134277, 1013904242, 2773480762,
   1359893119, 2600822924, 528734635, 1541459225]

/-- Big-endian 8-byte encoding of the 64-bit message length. -/
def be64 (n : Nat) : List Nat :=
  [n / 72057594037927936 % 256, n / 281474976710656 % 256,
   n / 1099511627776 % 256, n / 4294967296 % 256,
   n / 16777216 % 256, n / 65536 % 256, n / 256 % 256, n % 256]

/-- Big-endian 4-byte encoding of one 32-bit word. -/
def be32 (n : Nat) : List Nat :=
  [n / 16777216 % 256, n / 65536 % 256, n / 256 % 256, n % 256]

/-- SHA-256 padding: append `0x80`, zeros to 56 mod 64, then the
bit length big-endian in 8 bytes. -/
def shaPad (msg : List Nat) : List Nat :=
  let z := (119 - msg.length % 64) % 64
  msg ++ (128 :: List.replicate z 0) ++ be64 (8 * msg.length)

/-- Group bytes into big-endian 32-bit words (length a multiple of 4). -/
def bytesToWords : List Nat → List Nat
  | a :: b :: c :: d :: rest =>
    (a * 16777216 + b * 65536 + c * 256 + d) :: bytesToWords rest
  | _ => []

/-- Extend a message schedule by `t` further words. -/
def extendW (w : List Nat) : Nat → List Nat
  | 0 => w
  | t + 1 =>
    let n := w.length
    let wt := w32 (smallSigma1 (w.getD (n - 2) 0) + w.getD (n - 7) 0 +
                   smallSigma0 (w.getD (n - 15) 0) + w.getD (n - 16) 0)
    extendW (w ++ [wt]) t

/-- One SHA-256 round on the 8-word working state. -/
def shaRound (st : List Nat) (k w : Nat) : List Nat :=
  match st with
  | [a, b, c, d, e, f, g, h] =>
    let t1 := w32 (h + bigSigma1 e + shaCh e f g + k + w)
    let t2 := w32 (bigSigma0 a + shaMaj a b c)
    [w32 (t1 + t2), a, b, c, w32 (d + t1), e, f, g]
  | other => other

/-- Compress one 64-byte block into the hash state. -/
def shaCompress (hs block : List Nat) : List Nat :=
  let ws := extendW (bytesToWords block) 48
  let fin := (shaK.zip ws).foldl (fun st p => shaRound st p.1 p.2) hs
  (hs.zip fin).map (fun p => w32 (p.1 + p.2))

/-- Split a byte list into 64-byte blocks (`fuel` bounds the recursion
depth; one unit per block suffices, the byte count certainly does). -/
def splitBlocksGo : Nat → List Nat → List (List Nat)
  | 0, _ => []
  | _, [] => []
  | fuel + 1, l => l.take 64 :: splitBlocksGo fuel (l.drop 64)

/-- Split a byte list into 64-byte blocks. -/
def splitBlocks (l : List Nat) : List (List Nat) :=
  splitBlocksGo l.length l

/-- Serialize the 8-word state to its 32-byte digest. -/
def wordsToBytes : List Nat → List Nat
  | [] => []
  | ws :: rest => be32 ws ++ wordsToBytes rest

/-- SHA-256 digest (32 bytes) of a byte list. -/
def sha256 (msg : List Nat) : List Nat :=
  wordsToBytes ((splitBlocks (shaPad msg)).foldl shaCompress shaH0)

/-- HMAC-SHA256 digest (32 bytes): RFC 2104 with block size 64, as in
`hmac.new(key, msg, hashlib.sha256)`. -/
def hmacSha256 (key msg : List Nat) : List Nat :=
  let k0 := if key.length > 64 then sha256 key else key
  let k := k0 ++ List.replicate (64 - k0.length) 0
  sha256 (k.map (· ^^^ 92) ++ sha256 (k.map (· ^^^ 54) ++ msg))

/-- `hmac.new(key, msg, hashlib.sha256).hexdigest()`: the HMAC-SHA256
digest as 64 lowercase hex characters. -/
def hmacSha256Hex (key msg : List Nat) : String :=
  String.mk (bytesToHex (hmacSha256 key msg))

/-! ## The program

`test-prompt.py`, embedded over three oracles:

* `env : String → Option String` — `os.getenv` after `load_dotenv()`
  merged the optional `.env` override file into the process
  environment (`none`: the variable is unset in both);
* `fs : String → FileResult` — opening and reading a path as UTF-8
  text, distinguishing a successful full read, `FileNotFoundError`
  (the one exception the script handles), and an open that fails for
  any other reason (`PermissionError`, `IsADirectoryError`, ...),
  which no handler catches;
* `net : HttpRequest → NetResult` — the single blocking
  `urllib.request.urlopen` exchange.
-/

/-- What opening and fully reading the prompt file can yield:
`found` — the UTF-8 text; `notFound` — `FileNotFoundError`, which
the script catches and turns into its own diagnostic; `openFailure`
— the file exists but `open` raises some other `OSError`
(`PermissionError`, `IsADirectoryError`, ...), a case no `except`
clause of the script covers, so it propagates as an uncaught
exception. -/
inductive FileResult where
  | found (content : String)
  | notFound
  | openFailure
deriving DecidableEq, Repr

/-- The resolved configuration (module-level constants of the script). -/
structure Config where
  sharedSecret : String
  userId : String
  projectId : String
  endpoint : String
  promptFile : String
deriving DecidableEq, Repr

/-- The one outbound HTTP request built by the script: URL, method,
the two headers, and the body bytes. -/
structure HttpRequest where
  url : String
  method : String
  contentType : String
  signature : String
  body : List Nat
deriving DecidableEq, Repr

/-- What the transport layer reports for the exchange:
`success` — a response `urlopen` does not turn into an exception
(any such status), with the raw body bytes; `httpError` — an
`urllib.error.HTTPError` with its status code and body bytes;
`urlError` — an `urllib.error.URLError` (DNS, connection refused,
and so on) with its reason text. -/
inductive NetResult where
  | success (status : Nat) (body : List Nat)
  | httpError (code : Nat) (body : List Nat)
  | urlError (reason : String)
deriving DecidableEq, Repr

/-- The observable behaviour of one invocation: the lines printed to
stdout and to stderr, the process exit code, whether the process died
from an uncaught exception (CPython then prints a traceback to stderr
and exits with code 1; `stderrLines` lists only the lines the script
itself printed), and the HTTP request issued, if any. -/
structure Outcome where
  stdoutLines : List String
  stderrLines : List String
  exitCode : Nat
  crashed : Bool
  request : Option HttpRequest
deriving DecidableEq, Repr

/-- Resolution of the four defaulted settings (`os.getenv(name,
default)`: the default applies only when the variable is unset). -/
def resolveConfig (secret : String) (env : String → Option String) : Config :=
  { sharedSecret := secret
    userId := (env "USER_ID").getD "user123"
    projectId := (env "PROJECT_ID").getD "project789"
    endpoint := (env "ENDPOINT").getD "http://localhost:3000/build-preview-for-new-project"
    promptFile := (env "PROMPT_FILE").getD "test-prompt.txt" }

/-- The serialized envelope bytes: json.dumps with compact separators
and ensure_ascii=False, then encode to UTF-8. -/
def envelopePayload (userId projectId prompt : String) : List Nat :=
  utf8Encode (serializeEnvelope userId projectId prompt)

/-- The `urllib.request.Request` the script constructs: POST to the
endpoint, `Content-Type: application/json`, `x-sheen-signature` the
hex HMAC of the payload under the shared secret, body the payload. -/
def builtRequest (cfg : Config) (prompt : String) : HttpRequest :=
  let payload := envelopePayload cfg.userId cfg.projectId prompt
  { url := cfg.endpoint
    method := "POST"
    contentType := "application/json"
    signature := hmacSha256Hex (utf8Encode cfg.sharedSecret) payload
    body := payload }

/-- Outcome of the module-level fail-fast when `SHARED_SECRET` is
unset or empty. -/
def secretMissingOutcome : Outcome :=
  { stdoutLines := []
    stderrLines := ["Error: SHARED_SECRET not set in environment or .env file"]
    exitCode := 1
    crashed := false
    request := none }

/-- The body of `main()`: read the prompt, build and sign the payload,
send, and report.  Only `FileNotFoundError` is caught; any other
open failure escapes every handler and kills the process with a
traceback (modelled as `crashed`, with no script-printed lines). -/
def mainBody (cfg : Config) (fs : String → FileResult)
    (net : HttpRequest → NetResult) : Outcome :=
  match fs cfg.promptFile with
  | FileResult.notFound =>
    { stdoutLines := []
      stderrLines := ["Error: cannot find " ++ cfg.promptFile]
      exitCode := 1
      crashed := false
      request := none }
  | FileResult.openFailure =>
    { stdoutLines := []
      stderrLines := []
      exitCode := 1
      crashed := true
      request := none }
  | FileResult.found prompt =>
    let req := builtRequest cfg prompt
    match net req with
    | NetResult.success status rbody =>
      -- resp.read().decode("utf-8") runs before either print
      match utf8DecodeStr rbody with
      | some text =>
        { stdoutLines := ["→ HTTP " ++ toString status, text]
          stderrLines := []
          exitCode := 0
          crashed := false
          request := some req }
      | none =>
        { stdoutLines := []
          stderrLines := []
          exitCode := 1
          crashed := true
          request := some req }
    | NetResult.httpError code rbody =>
      -- the status line is printed before e.read().decode("utf-8")
      match utf8DecodeStr rbody with
      | some text =>
        { stdoutLines := []
          stderrLines := ["→ HTTP " ++ toString code, text]
          exitCode := 1
          crashed := false
          request := some req }
      | none =>
        { stdoutLines := []
          stderrLines := ["→ HTTP " ++ toString code]
          exitCode := 1
          crashed := true
          request := some req }
    | NetResult.urlError reason =>
      { stdoutLines := []
        stderrLines := ["Request failed: " ++ reason]
        exitCode := 1
        crashed := false
        request := some req }

/-- One invocation of the script: the module-level `SHARED_SECRET`
fail-fast (`if not SHARED_SECRET`, so both the unset and the empty
value trip it), configuration resolution, then `main()`. -/
def runProgram (env : String → Option String) (fs : String → FileResult)
    (net : HttpRequest → NetResult) : Outcome :=
  match env "SHARED_SECRET" with
  | none => secretMissingOutcome
  | some secret =>
    if secret = "" then secretMissingOutcome
    else mainBody (resolveConfig secret env) fs net

/-! ## A JSON reader for the envelope

To state the round-trip property (spec §8: parsing the transmitted
body yields the original prompt) we need an independent parser for
the JSON the script emits: a standard JSON string-literal reader
(quotes, the short escapes, `\uXXXX`, raw control characters
rejected) and the fixed three-key object shape. Surrogate-pair
escapes are rejected rather than combined; the compact encoder never
produces them. -/

/-- Numeric value of one hexadecimal digit character (either case). -/
def parseHexDigit (c : Char) : Option Nat :=
  if 48 ≤ c.toNat ∧ c.toNat ≤ 57 then some (c.toNat - 48)
  else if 97 ≤ c.toNat ∧ c.toNat ≤ 102 then some (c.toNat - 87)
  else if 65 ≤ c.toNat ∧ c.toNat ≤ 70 then some (c.toNat - 55)
  else none

/-- The character denoted by a JSON short escape `\e`. -/
def unescapeShort (e : Char) : Option Char :=
  if e = Char.ofNat 34 then some (Char.ofNat 34)
  else if e = Char.ofNat 92 then some (Char.ofNat 92)
  else if e = Char.ofNat 47 then some (Char.ofNat 47)
  else if e = Char.ofNat 98 then some (Char.ofNat 8)
  else if e = Char.ofNat 102 then some (Char.ofNat 12)
  else if e = Char.ofNat 110 then some (Char.ofNat 10)
  else if e = Char.ofNat 114 then some (Char.ofNat 13)
  else if e = Char.ofNat 116 then some (Char.ofNat 9)
  else none

/-- Prepend a character to the parsed part of a parser result. -/
def consFst (c : Char) : Option (List Char × List Char) → Option (List Char × List Char)
  | some (s, r) => some (c :: s, r)
  | none => none

/-- Read a JSON string body up to and past the closing quote,
returning the denoted characters and the unconsumed tail. -/
def parseJsonStringBody : List Char → Option (List Char × List Char)
  | [] => none
  | c :: rest =>
    if c = Char.ofNat 34 then some ([], rest)
    else if c = Char.ofNat 92 then
      match rest with
      | [] => none
      | e :: rest2 =>
        if e = Char.ofNat 117 then
          match rest2 with
          | h1 :: h2 :: h3 :: h4 :: rest3 =>
            match parseHexDigit h1, parseHexDigit h2,
                  parseHexDigit h3, parseHexDigit h4 with
            | some d1, some d2, some d3, some d4 =>
              let n := ((d1 * 16 + d2) * 16 + d3) * 16 + d4
              if n < 55296 then consFst (Char.ofNat n) (parseJsonStringBody rest3)
              else none
            | _, _, _, _ => none
          | _ => none
        else
          match unescapeShort e with
          | some c2 => consFst c2 (parseJsonStringBody rest2)
          | none => none
    else if c.toNat < 32 then none
    else consFst c (parseJsonStringBody rest)

/-- Read a complete JSON string literal (opening quote included). -/
def parseJsonStringAt : List Char → Option (List Char × List Char)
  | [] => none
  | c :: rest =>
    if c = Char.ofNat 34 then parseJsonStringBody rest else none

/-- Consume an exact literal prefix. -/
def consumeLit : List Char → List Char → Option (List Char)
  | [], l => some l
  | _ :: _, [] => none
  | p :: ps, c :: cs => if c = p then consumeLit ps cs else none

/-- Parse the full envelope object
`\x7b"userId":s1,"projectId":s2,"prompt":s3\x7d` with nothing
left over, returning the three decoded strings. -/
def parseEnvelopeChars (l : List Char) : Option (String × String × String) := do
  let l1 ← consumeLit "\x7b\"userId\":".data l
  let (u, l2) ← parseJsonStringAt l1
  let l3 ← consumeLit ",\"projectId\":".data l2
  let (p, l4) ← parseJsonStringAt l3
  let l5 ← consumeLit ",\"prompt\":".data l4
  let (pr, l6) ← parseJsonStringAt l5
  if l6 = "\x7d".data then some (String.mk u, String.mk p, String.mk pr)
  else none

/-- Parse the transmitted body bytes: strict UTF-8 decoding followed
by the envelope reader. -/
def parseEnvelopeBytes (bs : List Nat) : Option (String × String × String) :=
  match utf8DecodeList bs with
  | some cs => parseEnvelopeChars cs
  | none => none

/-! ## Concrete fixtures

The environment, filesystem and transport instances used by the
scenario checks (spec section 8). -/

/-- The section-8 scenario environment: `SHARED_SECRET=abc`,
`USER_ID=u1`, `PROJECT_ID=p1`, everything else unset. -/
def envScenario : String → Option String := fun k =>
  if k = "SHARED_SECRET" then some "abc"
  else if k = "USER_ID" then some "u1"
  else if k = "PROJECT_ID" then some "p1"
  else none

/-- Scenario filesystem: the default prompt file contains `hello`. -/
def fsScenario : String → FileResult := fun p =>
  if p = "test-prompt.txt" then FileResult.found "hello" else FileResult.notFound

/-- Filesystem whose prompt file holds a non-ASCII, multi-plane text. -/
def fsUnicode : String → FileResult := fun p =>
  if p = "test-prompt.txt" then FileResult.found "héllo α𝄞" else FileResult.notFound

/-- An empty filesystem: every open raises `FileNotFoundError`. -/
def fsEmpty : String → FileResult := fun _ => FileResult.notFound

/-- A filesystem where the prompt file exists but cannot be opened:
`open` raises, say, `PermissionError`, which the script does not
catch. -/
def fsDenied : String → FileResult := fun p =>
  if p = "test-prompt.txt" then FileResult.openFailure else FileResult.notFound

/-- A transport answering status 200 with body `\x7b"ok":true\x7d`. -/
def netOk : HttpRequest → NetResult := fun _ =>
  NetResult.success 200 (utf8Encode "\x7b\"ok\":true\x7d")

/-- A transport answering an HTTP 500 error with body `error text`. -/
def netErr : HttpRequest → NetResult := fun _ =>
  NetResult.httpError 500 (utf8Encode "error text")

/-- A transport whose success body is the lone byte 0xFF, which is
not decodable as UTF-8. -/
def netBadBytes : HttpRequest → NetResult := fun _ =>
  NetResult.success 200 [255]

/-- An environment with no variables set at all. -/
def envUnset : String → Option String := fun _ => none

/-- An environment whose only setting is a whitespace-only secret. -/
def envSpaceSecret : String → Option String := fun k =>
  if k = "SHARED_SECRET" then some " " else none

/-- Secret `abc` plus `USER_ID` set to the empty string. -/
def envEmptyUser : String → Option String := fun k =>
  if k = "SHARED_SECRET" then some "abc"
  else if k = "USER_ID" then some "" else none

/-- The 49 bytes the section-8 scenario must transmit:
the UTF-8 (here: ASCII) text
`\x7b"userId":"u1","projectId":"p1","prompt":"hello"\x7d`. -/
def expectedBodyBytes : List Nat :=
  [123, 34, 117, 115, 101, 114, 73, 100, 34, 58, 34, 117, 49, 34, 44,
   34, 112, 114, 111, 106, 101, 99, 116, 73, 100, 34, 58, 34, 112, 49,
   34, 44, 34, 112, 114, 111, 109, 112, 116, 34, 58, 34, 104, 101,
   108, 108, 111, 34, 125]

/-! ## Round-trip lemmas

The compact Python JSON encoding is invertible: reading back the
serialized envelope (after strict UTF-8 decoding) recovers the three
field values exactly. -/

/-- The lowercase hex digits parse back to their values. -/
theorem parseHexDigit_hexDigitChar :
    ∀ n : Nat, n < 16 → parseHexDigit (hexDigitChar n) = some n := by
  decide

/-- Every character code is below 0x110000 and is not a surrogate. -/
theorem char_valid_bounds (c : Char) :
    c.toNat < 1114112 ∧ (c.toNat < 55296 ∨ 57343 < c.toNat) := by
  have h := c.valid
  simp only [UInt32.isValidChar, Nat.isValidChar] at h
  simp only [Char.toNat]
  rcases h with h | h
  · exact ⟨by omega, Or.inl (by omega)⟩
  · exact ⟨by omega, Or.inr (by omega)⟩

/-- Reading a JSON string body off the escaped characters followed by
the closing quote recovers the original characters and the tail. -/
theorem parse_escape_rt (cs : List Char) (rest : List Char) :
    parseJsonStringBody (pyJsonEscapeList cs ++ (Char.ofNat 34 :: rest)) = some (cs, rest) := by
  induction cs with
  | nil =>
    unfold pyJsonEscapeList parseJsonStringBody
    simp
  | cons c cs ih =>
    rw [show pyJsonEscapeList (c :: cs) = pyJsonEscapeChar c ++ pyJsonEscapeList cs from rfl,
        List.append_assoc]
    by_cases h34 : c = Char.ofNat 34
    · subst h34
      unfold pyJsonEscapeChar
      simp only [if_pos rfl]
      unfold parseJsonStringBody
      simp [unescapeShort, consFst, ih]
    · by_cases h92 : c = Char.ofNat 92
      · subst h92
        unfold pyJsonEscapeChar
        rw [if_neg (by decide), if_pos rfl]
        unfold parseJsonStringBody
        simp [unescapeShort, consFst, ih]
      · by_cases h8 : c = Char.ofNat 8
        · subst h8
          unfold pyJsonEscapeChar
          rw [if_neg (by decide), if_neg (by decide), if_pos rfl]
          unfold parseJsonStringBody
          simp [unescapeShort, consFst, ih]
        · by_cases h12 : c = Char.ofNat 12
          · subst h12
            unfold pyJsonEscapeChar
            rw [if_neg (by decide), if_neg (by decide), if_neg (by decide), if_pos rfl]
            unfold parseJsonStringBody
            simp [unescapeShort, consFst, ih]
          · by_cases h10 : c = Char.ofNat 10
            · subst h10
              unfold pyJsonEscapeChar
              rw [if_neg (by decide), if_neg (by decide), if_neg (by decide), if_neg (by decide),
                  if_pos rfl]
              unfold parseJsonStringBody
              simp [unescapeShort, consFst, ih]
            · by_cases h13 : c = Char.ofNat 13
              · subst h13
                unfold pyJsonEscapeChar
                rw [if_neg (by decide), if_neg (by decide), if_neg (by decide), if_neg (by decide),
                    if_neg (by decide), if_pos rfl]
                unfold parseJsonStringBody
                simp [unescapeShort, consFst, ih]
              · by_cases h9 : c = Char.ofNat 9
                · subst h9
                  unfold pyJsonEscapeChar
                  rw [if_neg (by decide), if_neg (by decide), if_neg (by decide),
                      if_neg (by decide), if_neg (by decide), if_neg (by decide), if_pos rfl]
                  unfold parseJsonStringBody
                  simp [unescapeShort, consFst, ih]
                · by_cases hctl : c.toNat < 32
                  · unfold pyJsonEscapeChar
                    rw [if_neg h34, if_neg h92, if_neg h8, if_neg h12, if_neg h10, if_neg h13,
                        if_neg h9, if_pos hctl]
                    unfold parseJsonStringBody
                    simp only [List.cons_append, if_neg (by decide : ¬ Char.ofNat 92 = Char.ofNat 34),
                      if_pos (rfl : Char.ofNat 92 = Char.ofNat 92),
                      if_pos (rfl : Char.ofNat 117 = Char.ofNat 117)]
                    simp only [if_true, List.nil_append]
                    have hd1 : parseHexDigit (Char.ofNat 48) = some 0 := by decide
                    have hd3 : parseHexDigit (hexDigitChar (c.toNat / 16)) = some (c.toNat / 16) :=
                      parseHexDigit_hexDigitChar _ (by omega)
                    have hd4 : parseHexDigit (hexDigitChar (c.toNat % 16)) = some (c.toNat % 16) :=
                      parseHexDigit_hexDigitChar _ (by omega)
                    simp only [hd1, hd3, hd4]
                    rw [show ((0 * 16 + 0) * 16 + c.toNat / 16) * 16 + c.toNat % 16 = c.toNat by omega]
                    rw [if_pos (by omega : c.toNat < 55296), Char.ofNat_toNat]
                    simp [consFst, ih]
                  · unfold pyJsonEscapeChar
                    rw [if_neg h34, if_neg h92, if_neg h8, if_neg h12, if_neg h10, if_neg h13,
                        if_neg h9, if_neg hctl]
                    unfold parseJsonStringBody
                    simp [h34, h92, hctl, consFst, ih]

/-- Decoding one scalar off its own UTF-8 encoding recovers it and
the trailing bytes. -/
theorem utf8DecodeOne_encodeChar (c : Char) (rest : List Nat) :
    utf8DecodeOne (utf8EncodeChar c ++ rest) = some (c, rest) := by
  have hv := char_valid_bounds c
  unfold utf8EncodeChar
  by_cases h1 : c.toNat < 128
  · rw [if_pos h1]
    simp only [List.cons_append, List.nil_append, utf8DecodeOne]
    rw [if_pos h1, Char.ofNat_toNat]
  · rw [if_neg h1]
    by_cases h2 : c.toNat < 2048
    · rw [if_pos h2]
      simp only [List.cons_append, List.nil_append, utf8DecodeOne]
      rw [if_neg (by omega), if_neg (by omega), if_pos (by omega)]
      rw [if_pos (by omega : 128 ≤ 128 + c.toNat % 64 ∧ 128 + c.toNat % 64 < 192)]
      rw [show (192 + c.toNat / 64 - 192) * 64 + (128 + c.toNat % 64 - 128) = c.toNat by omega]
      rw [Char.ofNat_toNat]
    · rw [if_neg h2]
      by_cases h3 : c.toNat < 65536
      · rw [if_pos h3]
        simp only [List.cons_append, List.nil_append, utf8DecodeOne]
        rw [if_neg (by omega), if_neg (by omega), if_neg (by omega), if_pos (by omega)]
        rw [if_pos (by omega :
          (128 ≤ 128 + c.toNat / 64 % 64 ∧ 128 + c.toNat / 64 % 64 < 192) ∧
          (128 ≤ 128 + c.toNat % 64 ∧ 128 + c.toNat % 64 < 192) ∧
          (224 + c.toNat / 4096 = 224 → 160 ≤ 128 + c.toNat / 64 % 64) ∧
          (224 + c.toNat / 4096 = 237 → 128 + c.toNat / 64 % 64 < 160))]
        rw [show (224 + c.toNat / 4096 - 224) * 4096 + (128 + c.toNat / 64 % 64 - 128) * 64 +
              (128 + c.toNat % 64 - 128) = c.toNat by omega]
        rw [Char.ofNat_toNat]
      · rw [if_neg h3]
        simp only [List.cons_append, List.nil_append, utf8DecodeOne]
        rw [if_neg (by omega), if_neg (by omega), if_neg (by omega), if_neg (by omega),
            if_pos (by omega)]
        rw [if_pos (by omega :
          (128 ≤ 128 + c.toNat / 4096 % 64 ∧ 128 + c.toNat / 4096 % 64 < 192) ∧
          (128 ≤ 128 + c.toNat / 64 % 64 ∧ 128 + c.toNat / 64 % 64 < 192) ∧
          (128 ≤ 128 + c.toNat % 64 ∧ 128 + c.toNat % 64 < 192) ∧
          (240 + c.toNat / 262144 = 240 → 144 ≤ 128 + c.toNat / 4096 % 64) ∧
          (240 + c.toNat / 262144 = 244 → 128 + c.toNat / 4096 % 64 < 144))]
        rw [show (240 + c.toNat / 262144 - 240) * 262144 + (128 + c.toNat / 4096 % 64 - 128) * 4096 +
              (128 + c.toNat / 64 % 64 - 128) * 64 + (128 + c.toNat % 64 - 128) = c.toNat by omega]
        rw [Char.ofNat_toNat]

theorem utf8EncodeChar_cons (c : Char) : ∃ b bs, utf8EncodeChar c = b :: bs := by
  unfold utf8EncodeChar
  by_cases h1 : c.toNat < 128
  · rw [if_pos h1]; exact ⟨_, _, rfl⟩
  · rw [if_neg h1]
    by_cases h2 : c.toNat < 2048
    · rw [if_pos h2]; exact ⟨_, _, rfl⟩
    · rw [if_neg h2]
      by_cases h3 : c.toNat < 65536
      · rw [if_pos h3]; exact ⟨_, _, rfl⟩
      · rw [if_neg h3]; exact ⟨_, _, rfl⟩

theorem utf8DecodeGo_encodeList (cs : List Char) :
    ∀ fuel, (utf8EncodeList cs).length ≤ fuel →
      utf8DecodeGo fuel (utf8EncodeList cs) = some cs := by
  induction cs with
  | nil => intro fuel _; cases fuel <;> rfl
  | cons c cs ih =>
    intro fuel hf
    obtain ⟨b, bs, hE⟩ := utf8EncodeChar_cons c
    rw [show utf8EncodeList (c :: cs) = utf8EncodeChar c ++ utf8EncodeList cs from rfl] at hf ⊢
    have hlen : (utf8EncodeList cs).length ≤ (utf8EncodeChar c ++ utf8EncodeList cs).length - 1 := by
      rw [hE]; simp [List.length_append]
    cases fuel with
    | zero =>
      rw [hE] at hf
      simp [List.length_append] at hf
    | succ fuel =>
      rw [hE, List.cons_append]
      simp only [utf8DecodeGo]
      rw [← List.cons_append, ← hE, utf8DecodeOne_encodeChar]
      have hfuel : (utf8EncodeList cs).length ≤ fuel := by
        rw [hE] at hf
        simp only [List.cons_append, List.length_cons, List.length_append] at hf
        omega
      simp only [Option.bind_eq_bind, Option.some_bind]
      rw [ih fuel hfuel]
      rfl

theorem utf8DecodeList_encodeList (cs : List Char) :
    utf8DecodeList (utf8EncodeList cs) = some cs :=
  utf8DecodeGo_encodeList cs _ (Nat.le_refl _)

theorem consumeLit_append (p l : List Char) : consumeLit p (p ++ l) = some l := by
  induction p with
  | nil => rfl
  | cons c ps ih =>
    simp only [List.cons_append, consumeLit, if_pos rfl]
    exact ih

theorem parseJsonStringAt_encode (s : String) (rest : List Char) :
    parseJsonStringAt ((pyJsonEncodeString s).data ++ rest) = some (s.data, rest) := by
  show parseJsonStringAt ((Char.ofNat 34 :: (pyJsonEscapeList s.data ++ [Char.ofNat 34])) ++ rest) = _
  simp only [List.cons_append, List.append_assoc, List.singleton_append]
  simp only [parseJsonStringAt, if_pos rfl]
  exact parse_escape_rt s.data rest

theorem parseEnvelopeChars_serialize (u p pr : String) :
    parseEnvelopeChars (serializeEnvelope u p pr).data = some (u, p, pr) := by
  have hdata : (serializeEnvelope u p pr).data =
      "\x7b\"userId\":".data ++ ((pyJsonEncodeString u).data ++
      (",\"projectId\":".data ++ ((pyJsonEncodeString p).data ++
      (",\"prompt\":".data ++ ((pyJsonEncodeString pr).data ++ "\x7d".data))))) := by
    simp [serializeEnvelope, String.data_append, List.append_assoc]
  rw [hdata]
  unfold parseEnvelopeChars
  rw [consumeLit_append]
  simp only [Option.bind_eq_bind, Option.some_bind]
  rw [parseJsonStringAt_encode]
  simp only [Option.some_bind]
  rw [consumeLit_append]
  simp only [Option.some_bind]
  rw [parseJsonStringAt_encode]
  simp only [Option.some_bind]
  rw [consumeLit_append]
  simp only [Option.some_bind]
  rw [parseJsonStringAt_encode]
  simp only [Option.some_bind]
  rfl

theorem parseEnvelopeBytes_payload (u p pr : String) :
    parseEnvelopeBytes (envelopePayload u p pr) = some (u, p, pr) := by
  unfold parseEnvelopeBytes envelopePayload utf8Encode
  rw [utf8DecodeList_encodeList]
  exact parseEnvelopeChars_serialize u p pr

/-! ## Program-level lemmas and standard test vectors -/

set_option maxRecDepth 8000 in
/-- FIPS 180-4 test vector: SHA-256 of `abc`. -/
theorem sha256_abc_vector :
    String.mk (bytesToHex (sha256 [97, 98, 99])) =
      "ba7816bf8f01cfea414140de5dae2223b00361a396177a9cb410ff61f20015ad" := by
  decide

set_option maxRecDepth 8000 in
/-- Classic HMAC-SHA256 test vector (key `key`, the quick brown fox). -/
theorem hmac_fox_vector :
    hmacSha256Hex (utf8Encode "key")
      (utf8Encode "The quick brown fox jumps over the lazy dog") =
      "f7bc83f430538424b13298e6aa6fb143ef4d59a14946175997479dbc2d1a3cd8" := by
  decide

/-- Whenever the script issues a request, the run went through the
secret check and the file read, and the request is exactly the built,
signed one. -/
theorem runProgram_request_eq (env : String → Option String)
    (fs : String → FileResult)
    (net : HttpRequest → NetResult) (req : HttpRequest)
    (h : (runProgram env fs net).request = some req) :
    ∃ secret prompt,
      env "SHARED_SECRET" = some secret ∧ secret ≠ "" ∧
      fs ((env "PROMPT_FILE").getD "test-prompt.txt") = FileResult.found prompt ∧
      req = builtRequest (resolveConfig secret env) prompt := by
  unfold runProgram at h
  split at h
  · simp [secretMissingOutcome] at h
  · rename_i secret hs
    by_cases hse : secret = ""
    · rw [if_pos hse] at h
      simp [secretMissingOutcome] at h
    · rw [if_neg hse] at h
      unfold mainBody at h
      split at h
      · simp at h
      · simp at h
      · rename_i prompt hp
        refine ⟨secret, prompt, hs, hse, hp, ?_⟩
        cases hnet : net (builtRequest (resolveConfig secret env) prompt) with
        | success status rbody =>
          cases hdec : utf8DecodeStr rbody with
          | none => simp only [hnet, hdec, Option.some.injEq] at h; exact h.symm
          | some text => simp only [hnet, hdec, Option.some.injEq] at h; exact h.symm
        | httpError code rbody =>
          cases hdec : utf8DecodeStr rbody with
          | none => simp only [hnet, hdec, Option.some.injEq] at h; exact h.symm
          | some text => simp only [hnet, hdec, Option.some.injEq] at h; exact h.symm
        | urlError reason =>
          simp only [hnet, Option.some.injEq] at h; exact h.symm

/-- Passing the secret check reduces a run to the body of `main`. -/
theorem runProgram_eq_mainBody (env : String → Option String) (fs : String → FileResult)
    (net : HttpRequest → NetResult) (secret : String)
    (hs : env "SHARED_SECRET" = some secret) (hne : secret ≠ "") :
    runProgram env fs net = mainBody (resolveConfig secret env) fs net := by
  unfold runProgram
  rw [hs]
  exact if_neg hne

/-! ## The claims -/

/-- Claim C1: the HMAC-SHA256 signature placed in the `x-sheen-signature`
header is computed over exactly the byte sequence transmitted as the
request body: whenever a request is issued, its body is the single
serialization of the envelope and its signature header is the HMAC of
precisely those body bytes under the configured secret, with no
re-serialization between signing and sending. -/
theorem sig_over_transmitted_bytes (env : String → Option String) (fs : String → FileResult)
    (net : HttpRequest → NetResult) (req : HttpRequest)
    (h : (runProgram env fs net).request = some req) :
    ∃ secret prompt,
      env "SHARED_SECRET" = some secret ∧
      fs ((env "PROMPT_FILE").getD "test-prompt.txt") = FileResult.found prompt ∧
      req.body = envelopePayload ((env "USER_ID").getD "user123")
        ((env "PROJECT_ID").getD "project789") prompt ∧
      req.signature = hmacSha256Hex (utf8Encode secret) req.body := by
  obtain ⟨secret, prompt, hs, hne, hp, hreq⟩ := runProgram_request_eq env fs net req h
  subst hreq
  exact ⟨secret, prompt, hs, hp, rfl, rfl⟩

/-- Witness for C1 at the section-8 scenario inputs. -/
theorem sig_over_transmitted_bytes_witness :
    ∃ req, (runProgram envScenario fsScenario netOk).request = some req ∧
      req.signature = hmacSha256Hex (utf8Encode "abc") req.body := by
  have hreq : (runProgram envScenario fsScenario netOk).request =
      some (builtRequest (resolveConfig "abc" envScenario) "hello") := rfl
  obtain ⟨secret, prompt, hs, hp, hb, hsig⟩ :=
    sig_over_transmitted_bytes envScenario fsScenario netOk _ hreq
  have hsec : secret = "abc" := by
    have h2 : some "abc" = some secret := hs
    exact (Option.some.inj h2).symm
  subst hsec
  exact ⟨_, hreq, hsig⟩

/-- Claim C2: with `SHARED_SECRET=abc`, `USER_ID=u1`, `PROJECT_ID=p1`
and prompt file `hello`, the transmitted body is exactly the 49 bytes
of `\x7b"userId":"u1","projectId":"p1","prompt":"hello"\x7d` (fixed key
order, compact separators) and the `x-sheen-signature` value is the
lowercase-hex HMAC-SHA256 of those exact bytes keyed by `abc`. -/
theorem scenario_exact_body_and_signature :
    ∃ req, (runProgram envScenario fsScenario netOk).request = some req ∧
      req.body = expectedBodyBytes ∧
      expectedBodyBytes =
        utf8Encode "\x7b\"userId\":\"u1\",\"projectId\":\"p1\",\"prompt\":\"hello\"\x7d" ∧
      req.signature = hmacSha256Hex (utf8Encode "abc") expectedBodyBytes := by
  refine ⟨builtRequest (resolveConfig "abc" envScenario) "hello", rfl, by decide, by decide, ?_⟩
  show hmacSha256Hex (utf8Encode "abc") (envelopePayload "u1" "p1" "hello") =
      hmacSha256Hex (utf8Encode "abc") expectedBodyBytes
  rw [show envelopePayload "u1" "p1" "hello" = expectedBodyBytes by decide]

/-- Claim C3: for every prompt file content, parsing the transmitted
JSON body (strict UTF-8 decoding plus a JSON reader) yields a
`prompt` field equal exactly to the file content, and the other two
fields equal to the resolved configuration - the compact,
non-ASCII-preserving encoding round-trips without loss. -/
theorem prompt_round_trip (env : String → Option String) (fs : String → FileResult)
    (net : HttpRequest → NetResult) (req : HttpRequest)
    (h : (runProgram env fs net).request = some req) :
    ∃ prompt, fs ((env "PROMPT_FILE").getD "test-prompt.txt") = FileResult.found prompt ∧
      parseEnvelopeBytes req.body =
        some ((env "USER_ID").getD "user123",
              (env "PROJECT_ID").getD "project789", prompt) := by
  obtain ⟨secret, prompt, hs, hne, hp, hreq⟩ := runProgram_request_eq env fs net req h
  subst hreq
  exact ⟨prompt, hp, parseEnvelopeBytes_payload _ _ _⟩

/-- Witness for C3 with a non-ASCII, multi-plane prompt. -/
theorem prompt_round_trip_witness :
    ∃ prompt, fsUnicode "test-prompt.txt" = FileResult.found prompt ∧
      parseEnvelopeBytes
          (builtRequest (resolveConfig "abc" envScenario) "héllo α𝄞").body =
        some ("u1", "p1", prompt) := by
  have hreq : (runProgram envScenario fsUnicode netOk).request =
      some (builtRequest (resolveConfig "abc" envScenario) "héllo α𝄞") := rfl
  obtain ⟨prompt, hp, hparse⟩ :=
    prompt_round_trip envScenario fsUnicode netOk _ hreq
  exact ⟨prompt, hp, hparse⟩

/-- Claim C4: if `SHARED_SECRET` is absent from the merged environment
or is the empty string, the script prints the diagnostic to stderr,
exits with code 1, and never issues a request. -/
theorem missing_secret_fail_fast (env : String → Option String) (fs : String → FileResult)
    (net : HttpRequest → NetResult)
    (h : env "SHARED_SECRET" = none ∨ env "SHARED_SECRET" = some "") :
    (runProgram env fs net).stderrLines =
      ["Error: SHARED_SECRET not set in environment or .env file"] ∧
    (runProgram env fs net).exitCode = 1 ∧
    (runProgram env fs net).request = none := by
  have hrun : runProgram env fs net = secretMissingOutcome := by
    unfold runProgram
    rcases h with h | h <;> rw [h]
    rfl
  rw [hrun]
  exact ⟨rfl, rfl, rfl⟩

/-- Witness for C4 at a fully unset environment. -/
theorem missing_secret_fail_fast_witness :
    envUnset "SHARED_SECRET" = none ∧
    (runProgram envUnset fsScenario netOk).stderrLines =
      ["Error: SHARED_SECRET not set in environment or .env file"] ∧
    (runProgram envUnset fsScenario netOk).exitCode = 1 ∧
    (runProgram envUnset fsScenario netOk).request = none :=
  ⟨rfl, missing_secret_fail_fast envUnset fsScenario netOk (Or.inl rfl)⟩

/-- Counterexample to claim C5 as stated: with a prompt file that
exists but cannot be opened (`PermissionError`, a case the claim
covers through `cannot be opened`), the script prints no diagnostic
at all — in particular none naming the path — because only
`FileNotFoundError` is caught; the process dies through the uncaught
exception (interpreter traceback, exit code 1), and no request is
issued. -/
theorem missing_prompt_file_fail_counterexample :
    (runProgram envScenario fsDenied netOk).stderrLines = [] ∧
    (runProgram envScenario fsDenied netOk).stderrLines ≠
      ["Error: cannot find test-prompt.txt"] ∧
    (runProgram envScenario fsDenied netOk).crashed = true ∧
    (runProgram envScenario fsDenied netOk).exitCode = 1 ∧
    (runProgram envScenario fsDenied netOk).request = none := by
  refine ⟨rfl, ?_, rfl, rfl, rfl⟩
  intro hcontra
  simp [runProgram, mainBody, envScenario, fsDenied, resolveConfig,
    secretMissingOutcome] at hcontra

/-- Claim C5, amended: if the prompt file at the configured path does
not exist (`FileNotFoundError`), the script prints a diagnostic
naming the attempted path to stderr and exits with code 1 before any
network I/O; if the file exists but cannot be opened, the open error
is uncaught, so the process terminates through the interpreter
(traceback, exit code 1) without the script printing any line — and
still before any network I/O. -/
theorem missing_prompt_file_fail (env : String → Option String)
    (fs : String → FileResult)
    (net : HttpRequest → NetResult) (secret : String)
    (hs : env "SHARED_SECRET" = some secret) (hne : secret ≠ "") :
    (fs ((env "PROMPT_FILE").getD "test-prompt.txt") = FileResult.notFound →
      (runProgram env fs net).stderrLines =
        ["Error: cannot find " ++ (env "PROMPT_FILE").getD "test-prompt.txt"] ∧
      (runProgram env fs net).exitCode = 1 ∧
      (runProgram env fs net).crashed = false ∧
      (runProgram env fs net).request = none) ∧
    (fs ((env "PROMPT_FILE").getD "test-prompt.txt") = FileResult.openFailure →
      (runProgram env fs net).stderrLines = [] ∧
      (runProgram env fs net).stdoutLines = [] ∧
      (runProgram env fs net).exitCode = 1 ∧
      (runProgram env fs net).crashed = true ∧
      (runProgram env fs net).request = none) := by
  rw [runProgram_eq_mainBody env fs net secret hs hne]
  constructor
  · intro hfs
    unfold mainBody
    rw [show (resolveConfig secret env).promptFile =
        (env "PROMPT_FILE").getD "test-prompt.txt" from rfl, hfs]
    exact ⟨rfl, rfl, rfl, rfl⟩
  · intro hfs
    unfold mainBody
    rw [show (resolveConfig secret env).promptFile =
        (env "PROMPT_FILE").getD "test-prompt.txt" from rfl, hfs]
    exact ⟨rfl, rfl, rfl, rfl, rfl⟩

/-- Witness for the amended C5, exercising both error paths: an
absent prompt file yields the formatted diagnostic, an unopenable
one yields the crash. -/
theorem missing_prompt_file_fail_witness :
    ((runProgram envScenario fsEmpty netOk).stderrLines =
      ["Error: cannot find test-prompt.txt"] ∧
    (runProgram envScenario fsEmpty netOk).exitCode = 1 ∧
    (runProgram envScenario fsEmpty netOk).request = none) ∧
    ((runProgram envScenario fsDenied netOk).crashed = true ∧
    (runProgram envScenario fsDenied netOk).exitCode = 1 ∧
    (runProgram envScenario fsDenied netOk).request = none) := by
  have h1 := (missing_prompt_file_fail envScenario fsEmpty netOk "abc"
    rfl (by decide)).1 rfl
  have h2 := (missing_prompt_file_fail envScenario fsDenied netOk "abc"
    rfl (by decide)).2 rfl
  exact ⟨⟨h1.1, h1.2.1, h1.2.2.2⟩, ⟨h2.2.2.2.1, h2.2.2.1, h2.2.2.2.2⟩⟩

/-- Claim C6: on a successful HTTP response (any status the transport
does not turn into an exception) whose body decodes as UTF-8, the
script prints the status line and the decoded body to stdout, prints
nothing to stderr, and exits with code 0. -/
theorem success_response_stdout (env : String → Option String) (fs : String → FileResult)
    (net : HttpRequest → NetResult) (secret prompt : String) (status : Nat)
    (rbody : List Nat) (text : String)
    (hs : env "SHARED_SECRET" = some secret) (hne : secret ≠ "")
    (hfs : fs ((env "PROMPT_FILE").getD "test-prompt.txt") = FileResult.found prompt)
    (hnet : net (builtRequest (resolveConfig secret env) prompt) =
      NetResult.success status rbody)
    (hdec : utf8DecodeStr rbody = some text) :
    runProgram env fs net =
      { stdoutLines := ["→ HTTP " ++ toString status, text]
        stderrLines := []
        exitCode := 0
        crashed := false
        request := some (builtRequest (resolveConfig secret env) prompt) } := by
  rw [runProgram_eq_mainBody env fs net secret hs hne]
  unfold mainBody
  rw [show (resolveConfig secret env).promptFile =
      (env "PROMPT_FILE").getD "test-prompt.txt" from rfl, hfs]
  simp only [hnet, hdec]

/-- Witness for C6: status 200 with body `\x7b"ok":true\x7d`. -/
theorem success_response_stdout_witness :
    runProgram envScenario fsScenario netOk =
      { stdoutLines := ["→ HTTP 200", "\x7b\"ok\":true\x7d"]
        stderrLines := []
        exitCode := 0
        crashed := false
        request := some (builtRequest (resolveConfig "abc" envScenario) "hello") } :=
  success_response_stdout envScenario fsScenario netOk "abc" "hello" 200
    (utf8Encode "\x7b\"ok\":true\x7d") "\x7b\"ok\":true\x7d"
    rfl (by decide) rfl rfl (by decide)

/-- Claim C7: on an HTTP-level error response, the script prints the
status line and then the decoded error body to stderr, exits with
code 1, and prints nothing about the exchange to stdout. -/
theorem http_error_stderr (env : String → Option String) (fs : String → FileResult)
    (net : HttpRequest → NetResult) (secret prompt : String) (code : Nat)
    (rbody : List Nat) (text : String)
    (hs : env "SHARED_SECRET" = some secret) (hne : secret ≠ "")
    (hfs : fs ((env "PROMPT_FILE").getD "test-prompt.txt") = FileResult.found prompt)
    (hnet : net (builtRequest (resolveConfig secret env) prompt) =
      NetResult.httpError code rbody)
    (hdec : utf8DecodeStr rbody = some text) :
    runProgram env fs net =
      { stdoutLines := []
        stderrLines := ["→ HTTP " ++ toString code, text]
        exitCode := 1
        crashed := false
        request := some (builtRequest (resolveConfig secret env) prompt) } := by
  rw [runProgram_eq_mainBody env fs net secret hs hne]
  unfold mainBody
  rw [show (resolveConfig secret env).promptFile =
      (env "PROMPT_FILE").getD "test-prompt.txt" from rfl, hfs]
  simp only [hnet, hdec]

/-- Witness for C7: status 500 with body `error text`. -/
theorem http_error_stderr_witness :
    runProgram envScenario fsScenario netErr =
      { stdoutLines := []
        stderrLines := ["→ HTTP 500", "error text"]
        exitCode := 1
        crashed := false
        request := some (builtRequest (resolveConfig "abc" envScenario) "hello") } :=
  http_error_stderr envScenario fsScenario netErr "abc" "hello" 500
    (utf8Encode "error text") "error text" rfl (by decide) rfl rfl (by decide)

/-- Claim C8: for `USER_ID`, `PROJECT_ID`, `ENDPOINT` and
`PROMPT_FILE`, the documented default applies only when the variable
is entirely unset; a variable set to the empty string yields the
empty string - in particular `USER_ID=""` produces `"userId":""` in
the envelope (the parsed envelope has an empty `userId`). -/
theorem default_only_when_unset (env : String → Option String) (secret v p pr : String) :
    ((env "USER_ID" = some v → (resolveConfig secret env).userId = v) ∧
     (env "USER_ID" = none → (resolveConfig secret env).userId = "user123")) ∧
    ((env "PROJECT_ID" = some v → (resolveConfig secret env).projectId = v) ∧
     (env "PROJECT_ID" = none → (resolveConfig secret env).projectId = "project789")) ∧
    ((env "ENDPOINT" = some v → (resolveConfig secret env).endpoint = v) ∧
     (env "ENDPOINT" = none → (resolveConfig secret env).endpoint =
        "http://localhost:3000/build-preview-for-new-project")) ∧
    ((env "PROMPT_FILE" = some v → (resolveConfig secret env).promptFile = v) ∧
     (env "PROMPT_FILE" = none → (resolveConfig secret env).promptFile = "test-prompt.txt")) ∧
    (env "USER_ID" = some "" →
      parseEnvelopeBytes (envelopePayload (resolveConfig secret env).userId p pr) =
        some ("", p, pr)) := by
  refine ⟨⟨?_, ?_⟩, ⟨?_, ?_⟩, ⟨?_, ?_⟩, ⟨?_, ?_⟩, ?_⟩ <;> intro h <;>
    simp [resolveConfig, h, parseEnvelopeBytes_payload]

/-- Witness for C8 at an environment whose `USER_ID` is the empty
string. -/
theorem default_only_when_unset_witness :
    envEmptyUser "USER_ID" = some "" ∧
    (resolveConfig "abc" envEmptyUser).userId = "" ∧
    (resolveConfig "abc" envEmptyUser).projectId = "project789" ∧
    parseEnvelopeBytes
        (envelopePayload (resolveConfig "abc" envEmptyUser).userId "p1" "hi") =
      some ("", "p1", "hi") := by
  have h := default_only_when_unset envEmptyUser "abc" "" "p1" "hi"
  exact ⟨rfl, h.1.1 rfl, h.2.1.2 rfl, h.2.2.2.2 rfl⟩

/-- Claim C9: the secret check rejects exactly the absent and empty
cases - any non-empty value, whitespace included, passes the check
and is used verbatim (UTF-8 encoded) as the HMAC key. -/
theorem nonempty_secret_passes (env : String → Option String) (fs : String → FileResult)
    (net : HttpRequest → NetResult) (secret : String)
    (hs : env "SHARED_SECRET" = some secret) (hne : secret ≠ "") :
    runProgram env fs net = mainBody (resolveConfig secret env) fs net ∧
    (resolveConfig secret env).sharedSecret = secret ∧
    (∀ req, (runProgram env fs net).request = some req →
      req.signature = hmacSha256Hex (utf8Encode secret) req.body) := by
  refine ⟨runProgram_eq_mainBody env fs net secret hs hne, rfl, ?_⟩
  intro req h
  obtain ⟨secret2, prompt, hs2, hne2, hp, hreq⟩ := runProgram_request_eq env fs net req h
  have hsec : secret2 = secret := Option.some.inj (hs2.symm.trans hs)
  subst hsec
  subst hreq
  rfl

/-- Witness for C9 at a single-space secret. -/
theorem nonempty_secret_passes_witness :
    runProgram envSpaceSecret fsScenario netOk =
      mainBody (resolveConfig " " envSpaceSecret) fsScenario netOk ∧
    (builtRequest (resolveConfig " " envSpaceSecret) "hello").signature =
      hmacSha256Hex (utf8Encode " ")
        (builtRequest (resolveConfig " " envSpaceSecret) "hello").body := by
  have h := nonempty_secret_passes envSpaceSecret fsScenario netOk " " rfl (by decide)
  exact ⟨h.1, h.2.2 _ rfl⟩

/-- Claim C10: on a success-status response whose body bytes are not
valid UTF-8, the decode fails before the status line is printed: the
script terminates through the uncaught decode error with exit code 1
and nothing of the response on stdout. -/
theorem invalid_utf8_crash (env : String → Option String) (fs : String → FileResult)
    (net : HttpRequest → NetResult) (secret prompt : String) (status : Nat)
    (rbody : List Nat)
    (hs : env "SHARED_SECRET" = some secret) (hne : secret ≠ "")
    (hfs : fs ((env "PROMPT_FILE").getD "test-prompt.txt") = FileResult.found prompt)
    (hnet : net (builtRequest (resolveConfig secret env) prompt) =
      NetResult.success status rbody)
    (hdec : utf8DecodeStr rbody = none) :
    (runProgram env fs net).stdoutLines = [] ∧
    (runProgram env fs net).crashed = true ∧
    (runProgram env fs net).exitCode = 1 := by
  have hmain : runProgram env fs net =
      { stdoutLines := []
        stderrLines := []
        exitCode := 1
        crashed := true
        request := some (builtRequest (resolveConfig secret env) prompt) } := by
    rw [runProgram_eq_mainBody env fs net secret hs hne]
    unfold mainBody
    rw [show (resolveConfig secret env).promptFile =
        (env "PROMPT_FILE").getD "test-prompt.txt" from rfl, hfs]
    simp only [hnet, hdec]
  rw [hmain]
  exact ⟨rfl, rfl, rfl⟩

/-- Witness for C10: a success response whose body is the byte 0xFF. -/
theorem invalid_utf8_crash_witness :
    (runProgram envScenario fsScenario netBadBytes).stdoutLines = [] ∧
    (runProgram envScenario fsScenario netBadBytes).crashed = true ∧
    (runProgram envScenario fsScenario netBadBytes).exitCode = 1 :=
  invalid_utf8_crash envScenario fsScenario netBadBytes "abc" "hello" 200 [255]
    rfl (by decide) rfl rfl (by decide)

end SheenApps
